import Mathlib

/-!
Shallow embedding of the question-form and theme logic of the repository
(`src/context/ThemeProvider.tsx`, which holds both the `ThemeProvider`
component and the `Question` form component), together with theorems
settling the specification's claims about them.
-/

namespace NextDevFlow

/-- Model of the JavaScript `String.prototype.trim` builtin used by
`handleInoutKeyDown` (`tagInput.value.trim()`): removes leading and trailing
whitespace. -/
def jsTrim (s : String) : String :=
  String.mk (((s.data.dropWhile Char.isWhitespace).reverse.dropWhile
    Char.isWhitespace).reverse)

/-- The tag-related part of the question form's state: the ordered tag
sequence (react-hook-form field `tags`), the current value of the
uncontrolled tag `<Input>`, and the field-level error on `tags`
(set via `form.setError`, cleared via `form.clearErrors`). -/
structure TagState where
  tags : List String
  input : String
  tagError : Option String
  deriving Repr, DecidableEq

/-- The error message the code passes to `form.setError("tags", ...)`. -/
def tagLengthError : String := "Tag length must be less than 15 characters"

/-- Embedding of `handleInoutKeyDown` for the case `e.key === "Enter"` on the
`tags` field (the only case in which the handler acts).  Mirrors the source:
trim the input; if the trimmed tag is non-empty and longer than 15
characters, set the field error and return; if non-empty and not already
present, append it to the tag sequence, clear the input, and clear the
error; if it is a duplicate, change nothing; if the trimmed input is empty,
`form.trigger("tags")` runs validation and changes neither the tag sequence
nor the input. -/
def handleInoutKeyDown (st : TagState) : TagState :=
  let tag := jsTrim st.input
  if tag ≠ "" then
    if tag.length > 15 then
      { st with tagError := some tagLengthError }
    else if tag ∉ st.tags then
      { tags := st.tags ++ [tag], input := "", tagError := none }
    else
      st
  else
    st

/-- Embedding of `handleTagRemove`: `field.value.filter((t) => t !== tag)`. -/
def handleTagRemove (tag : String) (tags : List String) : List String :=
  tags.filter (fun t => t != tag)

/-- A user event on the tag editor: `setInput s` models typing into the tag
input (an uncontrolled input, so its value is whatever the user typed),
`enter` models pressing Enter inside the tag input (running
`handleInoutKeyDown`), and `remove t` models clicking a tag badge (running
`handleTagRemove`). -/
inductive TagEvent
  | setInput (s : String)
  | enter
  | remove (t : String)
  deriving Repr, DecidableEq

/-- One step of the tag editor under a user event. -/
def tagStep (st : TagState) : TagEvent → TagState
  | .setInput s => { st with input := s }
  | .enter => handleInoutKeyDown st
  | .remove t => { st with tags := handleTagRemove t st.tags }

/-- The form mounts with `tags: []` (from the form's `defaultValues`), an
empty tag input and no tags error. -/
def initialTagState : TagState :=
  { tags := [], input := "", tagError := none }

/-- The tag-editor state reached after a sequence of user events, starting
from the freshly mounted form. -/
def runTagEvents (es : List TagEvent) : TagState :=
  es.foldl tagStep initialTagState

/-- The payload `onSubmit` passes to the external `createQuestion`
operation. -/
structure QuestionPayload where
  title : String
  content : String
  tags : List String
  author : String
  path : String
  deriving Repr, DecidableEq

/-- The draft field values delivered to `onSubmit` by
`form.handleSubmit(onSubmit)` after schema validation. -/
structure DraftValues where
  title : String
  explanation : String
  tags : List String
  deriving Repr, DecidableEq

/-- Observable outcome of one run of `onSubmit`: the persistence calls made,
the navigation targets passed to `router.push`, the errors logged by the
`catch` block, the final value of the `submitting` flag, and the draft form
values when the handler returns (the handler never resets or rewrites the
form fields). -/
structure SubmitTrace where
  calls : List QuestionPayload
  navigations : List String
  logged : List String
  submitting : Bool
  formValues : DraftValues
  deriving Repr, DecidableEq

/-- Embedding of `onSubmit`.  `author` is the result of
`JSON.parse(mongoUserId)` and `pathname` the current route; `outcome` is the
result of awaiting `createQuestion` (`Except.ok` for a resolved promise,
`Except.error e` for a rejection with error `e`).  `onSubmit` returns a
complete trace rather than throwing: the `catch` block swallows the
rejection after `console.log(error)`, and the `finally` block clears
`submitting` on every path.  On success `router.push("/")` runs after the
awaited call. -/
def onSubmit (values : DraftValues) (author pathname : String)
    (outcome : Except String Unit) : SubmitTrace :=
  let payload : QuestionPayload :=
    { title := values.title, content := values.explanation,
      tags := values.tags, author := author, path := pathname }
  let afterTry : SubmitTrace :=
    match outcome with
    | .ok _ =>
      { calls := [payload], navigations := ["/"], logged := [],
        submitting := true, formValues := values }
    | .error e =>
      { calls := [payload], navigations := [], logged := [e],
        submitting := true, formValues := values }
  { afterTry with submitting := false }

/-- Modelled from the spec: `QuestionSchema` from `@/lib/validation` is not
among the provided source files.  Per the spec it requires a non-empty
title and an explanation of minimum length 20 characters ("Minimum 20
characters" in the form description; an explanation of 19 characters is
blocked with a minimum-length error). -/
def questionSchemaValid (values : DraftValues) : Bool :=
  values.title != "" && values.explanation.length ≥ 20

/-- An event in the submit-button lifecycle: `click` models pressing the
submit button, `settle` models the in-flight `createQuestion` promise
resolving or rejecting. -/
inductive SubmitEvent
  | click
  | settle
  deriving Repr, DecidableEq

/-- The submit lifecycle state: the `submitting` flag (which also disables
the button, `<Button disabled={submitting}>`) and the number of outstanding
persistence calls. -/
structure SubmitMachine where
  submitting : Bool
  inFlight : Nat
  deriving Repr, DecidableEq

/-- One step of the submit lifecycle.  A `click` while `submitting` is true
is ignored because the button is disabled; otherwise `onSubmit` starts,
sets `submitting` to true (`setSubmitting(true)`) and dispatches one
persistence call.  A `settle` with a call outstanding completes it and the
`finally` block clears `submitting` (`setSubmitting(false)`); a `settle`
with nothing in flight changes nothing. -/
def submitStep (s : SubmitMachine) : SubmitEvent → SubmitMachine
  | .click =>
    if s.submitting then s
    else { submitting := true, inFlight := s.inFlight + 1 }
  | .settle =>
    if s.inFlight = 0 then s
    else { submitting := false, inFlight := s.inFlight - 1 }

/-- The submit lifecycle state after a sequence of events, starting from the
mounted form (`useState(false)` for `submitting`, nothing in flight). -/
def submitRun (es : List SubmitEvent) : SubmitMachine :=
  es.foldl submitStep { submitting := false, inFlight := 0 }

/-- Embedding of the `useEffect` body in `ThemeProvider` that runs whenever
`mode` changes: if the mode is `"light"` it calls `setMode("dark")` and adds
the document-level `dark` class, otherwise it calls `setMode("light")` and
removes the class.  Returns the new mode together with whether the `dark`
class is present afterwards. -/
def themeEffect (mode : String) : String × Bool :=
  if mode = "light" then ("dark", true) else ("light", false)

/-- The theme mode after the n-th run of the effect, starting from the
initial `useState("light")`. -/
def themeModeAt : Nat → String
  | 0 => "light"
  | n + 1 => (themeEffect (themeModeAt n)).1

end NextDevFlow

namespace NextDevFlow

theorem tagStep_nodup (st : TagState) (e : TagEvent) (h : st.tags.Nodup) :
    (tagStep st e).tags.Nodup := by
  cases e with
  | setInput s => simpa [tagStep]
  | enter =>
    simp only [tagStep]
    unfold handleInoutKeyDown
    by_cases h1 : jsTrim st.input ≠ ""
    · by_cases h2 : (jsTrim st.input).length > 15
      · simpa [h1, h2]
      · by_cases h3 : jsTrim st.input ∉ st.tags
        · simp [h1, h2, h3, List.nodup_append, h]
        · simpa [h1, h2, h3]
    · simpa [h1]
  | remove t =>
    simp only [tagStep, handleTagRemove]
    exact h.filter _

theorem runTag_nodup_aux (es : List TagEvent) (st : TagState)
    (h : st.tags.Nodup) : (es.foldl tagStep st).tags.Nodup := by
  induction es generalizing st with
  | nil => exact h
  | cons e es ih => exact ih _ (tagStep_nodup st e h)

theorem length_filter_ne (t : String) (l : List String) :
    (l.filter (fun x => x != t)).length + l.count t = l.length := by
  induction l with
  | nil => simp
  | cons a l ih =>
    by_cases h : a = t
    · subst h
      simp [List.filter_cons, List.count_cons]
      omega
    · simp [List.filter_cons, List.count_cons, h]
      omega

theorem submitRun_inv_aux (es : List SubmitEvent) (s : SubmitMachine)
    (h : s.inFlight = if s.submitting then 1 else 0) :
    (es.foldl submitStep s).inFlight =
      if (es.foldl submitStep s).submitting then 1 else 0 := by
  induction es generalizing s with
  | nil => exact h
  | cons e es ih =>
    refine ih _ ?_
    cases e with
    | click =>
      by_cases hs : s.submitting
      · simpa [submitStep, hs] using h
      · simp [submitStep, hs] at h ⊢
        omega
    | settle =>
      by_cases hf : s.inFlight = 0
      · simpa [submitStep, hf] using h
      · simp [submitStep, hf]
        by_cases hs : s.submitting <;> simp [hs] at h <;> omega

/-- Claim C1, counterexample: the add path enforces no maximum tag count.
Four distinct Add tag operations from the freshly mounted form yield a
reachable draft state whose tag sequence has 4 elements, refuting
"no sequence of Add tag operations can make the tag count exceed 3". -/
theorem tag_cap_counterexample :
    ¬ (runTagEvents [TagEvent.setInput "a", TagEvent.enter,
        TagEvent.setInput "b", TagEvent.enter,
        TagEvent.setInput "c", TagEvent.enter,
        TagEvent.setInput "d", TagEvent.enter]).tags.length ≤ 3 := by
  decide

/-- Claim C1 as amended: reachable draft states of the question form have a
tag sequence of length at least 0, but the add path enforces no cap of 3:
some sequence of Add tag operations makes the tag count exceed 3. -/
theorem tag_count_unbounded :
    ∃ es : List TagEvent, 3 < (runTagEvents es).tags.length :=
  ⟨[TagEvent.setInput "a", TagEvent.enter,
    TagEvent.setInput "b", TagEvent.enter,
    TagEvent.setInput "c", TagEvent.enter,
    TagEvent.setInput "d", TagEvent.enter], by decide⟩

/-- Claim C2: for every raw tag input whose trimmed value is non-empty, of
length at most 15, and not already present in the current tag sequence,
pressing Enter appends it at the end (so the length grows by exactly one and
prior tags keep their order), clears the input, and clears any prior
tag-field error. -/
theorem addTag_appends (st : TagState)
    (h1 : jsTrim st.input ≠ "") (h2 : (jsTrim st.input).length ≤ 15)
    (h3 : jsTrim st.input ∉ st.tags) :
    handleInoutKeyDown st =
      { tags := st.tags ++ [jsTrim st.input], input := "", tagError := none } ∧
    (handleInoutKeyDown st).tags.length = st.tags.length + 1 := by
  have hlen : ¬ (jsTrim st.input).length > 15 := by omega
  constructor
  · simp [handleInoutKeyDown, h1, hlen, h3]
  · simp [handleInoutKeyDown, h1, hlen, h3]

/-- Witness for C2: adding " css " (trimmed to "css") to ["html"] with a
stale error appends it, clears the input and clears the error. -/
theorem addTag_appends_witness :
    handleInoutKeyDown ⟨["html"], " css ", some tagLengthError⟩ =
      { tags := ["html"] ++ [jsTrim " css "], input := "", tagError := none } ∧
    (handleInoutKeyDown ⟨["html"], " css ", some tagLengthError⟩).tags.length =
      (["html"] : List String).length + 1 :=
  addTag_appends ⟨["html"], " css ", some tagLengthError⟩
    (by decide) (by decide) (by decide)

/-- Claim C3: for every raw tag input whose trimmed value has length greater
than 15, pressing Enter leaves the tag sequence unchanged and sets the
tag-field error "Tag length must be less than 15 characters". -/
theorem addTag_too_long (st : TagState)
    (h : (jsTrim st.input).length > 15) :
    (handleInoutKeyDown st).tags = st.tags ∧
    (handleInoutKeyDown st).tagError = some tagLengthError := by
  have hne : jsTrim st.input ≠ "" := by
    intro he
    rw [he] at h
    simp at h
  constructor <;> simp [handleInoutKeyDown, hne, h]

/-- Witness for C3: a 16-character tag is rejected with the length error and
the tag sequence stays ["js"]. -/
theorem addTag_too_long_witness :
    (handleInoutKeyDown ⟨["js"], "abcdefghijklmnop", none⟩).tags = ["js"] ∧
    (handleInoutKeyDown ⟨["js"], "abcdefghijklmnop", none⟩).tagError =
      some tagLengthError :=
  addTag_too_long ⟨["js"], "abcdefghijklmnop", none⟩ (by decide)

end NextDevFlow

namespace NextDevFlow

/-- Claim C4: adding a tag that is already present leaves the tag sequence
unchanged; the concrete scenario add "css" then add "css" again yields
["css"]; and every reachable tag sequence contains no duplicate strings. -/
theorem addTag_dedup :
    (∀ st : TagState, jsTrim st.input ∈ st.tags →
      (handleInoutKeyDown st).tags = st.tags) ∧
    (runTagEvents [TagEvent.setInput "css", TagEvent.enter,
      TagEvent.setInput "css", TagEvent.enter]).tags = ["css"] ∧
    (∀ es : List TagEvent, (runTagEvents es).tags.Nodup) := by
  refine ⟨?_, by decide, ?_⟩
  · intro st h
    unfold handleInoutKeyDown
    by_cases h1 : jsTrim st.input ≠ ""
    · by_cases h2 : (jsTrim st.input).length > 15
      · simp [h1, h2]
      · simp [h1, h2, h]
    · simp [h1]
  · intro es
    exact runTag_nodup_aux es initialTagState (by simp [initialTagState])

/-- Witness for C4: with "css" already present and "css" typed in the input,
pressing Enter leaves the sequence at ["css"]. -/
theorem addTag_dedup_witness :
    (handleInoutKeyDown ⟨["css"], "css", none⟩).tags =
      (⟨["css"], "css", none⟩ : TagState).tags ∧
    (runTagEvents [TagEvent.setInput "css", TagEvent.enter,
      TagEvent.setInput "css", TagEvent.enter]).tags.Nodup :=
  ⟨addTag_dedup.1 ⟨["css"], "css", none⟩ (by decide),
   addTag_dedup.2.2 [TagEvent.setInput "css", TagEvent.enter,
     TagEvent.setInput "css", TagEvent.enter]⟩

/-- Claim C5: removing a tag `t` that occurs exactly once from a tag sequence
of length n yields a sequence of length n - 1 in which `t` is absent and the
remaining tags keep their relative order (the result is a sublist of the
original). -/
theorem handleTagRemove_spec (t : String) (tags : List String)
    (h : tags.count t = 1) :
    (handleTagRemove t tags).length = tags.length - 1 ∧
    t ∉ handleTagRemove t tags ∧
    (handleTagRemove t tags).Sublist tags := by
  refine ⟨?_, ?_, List.filter_sublist _⟩
  · have := length_filter_ne t tags
    simp only [handleTagRemove]
    omega
  · simp [handleTagRemove, List.mem_filter]

/-- Witness for C5: removing "css" from ["html", "css", "js"] yields a
2-element sequence without "css" that is a sublist of the original. -/
theorem handleTagRemove_spec_witness :
    (handleTagRemove "css" ["html", "css", "js"]).length =
      (["html", "css", "js"] : List String).length - 1 ∧
    "css" ∉ handleTagRemove "css" ["html", "css", "js"] ∧
    (handleTagRemove "css" ["html", "css", "js"]).Sublist
      ["html", "css", "js"] :=
  handleTagRemove_spec "css" ["html", "css", "js"] (by decide)

/-- Claim C6: for every draft passing schema validation, `onSubmit` performs
exactly one persistence call whose payload is {title, content := explanation,
tags, author := the parsed mongoUserId, path := the current route}, and when
the call resolves successfully it navigates to the home route "/". -/
theorem onSubmit_valid_one_call (values : DraftValues) (author pathname : String)
    (outcome : Except String Unit)
    (_hv : questionSchemaValid values = true) :
    (onSubmit values author pathname outcome).calls =
      [{ title := values.title, content := values.explanation,
         tags := values.tags, author := author, path := pathname }] ∧
    (outcome = Except.ok () →
      (onSubmit values author pathname outcome).navigations = ["/"]) := by
  constructor
  · cases outcome <;> simp [onSubmit]
  · intro h
    subst h
    simp [onSubmit]

/-- Witness for C6: a concrete valid draft submitted with a resolving
persistence call produces exactly one call with the serialized payload and a
navigation to "/". -/
theorem onSubmit_valid_one_call_witness :
    (onSubmit ⟨"How to center a div?", "aaaaaaaaaaaaaaaaaaaa", ["css"]⟩
        "u1" "/ask-question" (Except.ok ())).calls =
      [{ title := "How to center a div?", content := "aaaaaaaaaaaaaaaaaaaa",
         tags := ["css"], author := "u1", path := "/ask-question" }] ∧
    (Except.ok () = (Except.ok () : Except String Unit) →
      (onSubmit ⟨"How to center a div?", "aaaaaaaaaaaaaaaaaaaa", ["css"]⟩
        "u1" "/ask-question" (Except.ok ())).navigations = ["/"]) :=
  onSubmit_valid_one_call ⟨"How to center a div?", "aaaaaaaaaaaaaaaaaaaa", ["css"]⟩
    "u1" "/ask-question" (Except.ok ()) (by decide)

/-- Claim C7: if the persistence call rejects, `onSubmit` logs the error and
swallows it (the embedded handler returns a trace rather than re-throwing),
and the `submitting` flag is false after every run, on success and on
failure alike, via the `finally` cleanup. -/
theorem onSubmit_rejection_swallowed (values : DraftValues)
    (author pathname e : String) :
    (onSubmit values author pathname (Except.error e)).logged = [e] ∧
    (∀ outcome : Except String Unit,
      (onSubmit values author pathname outcome).submitting = false) := by
  constructor
  · simp [onSubmit]
  · intro outcome
    cases outcome <;> simp [onSubmit]

/-- Claim C8: the submit lifecycle keeps at most one persistence call
outstanding in every trace, and a click while `submitting` is true changes
nothing (the button is disabled), so no second call can start while one is
in flight. -/
theorem submit_mutex :
    (∀ es : List SubmitEvent, (submitRun es).inFlight ≤ 1) ∧
    (∀ s : SubmitMachine, s.submitting = true →
      submitStep s SubmitEvent.click = s) := by
  constructor
  · intro es
    have := submitRun_inv_aux es { submitting := false, inFlight := 0 } (by simp)
    unfold submitRun
    by_cases h : (es.foldl submitStep { submitting := false, inFlight := 0 }).submitting <;>
      simp [h] at this <;> omega
  · intro s hs
    simp [submitStep, hs]

/-- Witness for C8: two clicks in a row still leave at most one call in
flight, and a click in the submitting state is a no-op. -/
theorem submit_mutex_witness :
    (submitRun [SubmitEvent.click, SubmitEvent.click]).inFlight ≤ 1 ∧
    submitStep ⟨true, 1⟩ SubmitEvent.click = ⟨true, 1⟩ :=
  ⟨submit_mutex.1 [SubmitEvent.click, SubmitEvent.click],
   submit_mutex.2 ⟨true, 1⟩ rfl⟩

/-- Claim C9: the theme effect always sets a mode different from the one
that triggered it, so after the first render the mode flips between "light"
and "dark" indefinitely (mode at step n is "light" for even n and "dark" for
odd n), and the document-level dark flag tracks the new mode. -/
theorem theme_self_toggles :
    (∀ m : String, (themeEffect m).1 ≠ m) ∧
    (∀ n : Nat, themeModeAt n = if n % 2 = 0 then "light" else "dark") ∧
    (∀ m : String, (themeEffect m).2 = ((themeEffect m).1 == "dark")) := by
  refine ⟨?_, ?_, ?_⟩
  · intro m
    by_cases h : m = "light"
    · subst h
      simp [themeEffect]
    · simp [themeEffect, h]
      exact fun he => h he.symm
  · intro n
    induction n with
    | zero => simp [themeModeAt]
    | succ n ih =>
      rw [themeModeAt, ih]
      by_cases h : n % 2 = 0
      · have h2 : (n + 1) % 2 = 1 := by omega
        simp [h, h2, themeEffect]
      · have h2 : (n + 1) % 2 = 0 := by omega
        simp [h, h2, themeEffect]
  · intro m
    by_cases h : m = "light"
    · subst h
      simp [themeEffect]
    · simp [themeEffect, h]

/-- Witness for C9: the first effect run flips "light" to a different mode,
step 1 of the run is "dark", and the dark flag matches the new mode. -/
theorem theme_self_toggles_witness :
    (themeEffect "light").1 ≠ "light" ∧
    themeModeAt 1 = (if 1 % 2 = 0 then "light" else "dark") ∧
    (themeEffect "dark").2 = ((themeEffect "dark").1 == "dark") :=
  ⟨theme_self_toggles.1 "light", theme_self_toggles.2.1 1,
   theme_self_toggles.2.2 "dark"⟩

/-- Claim C10: if the persistence call rejects, `onSubmit` performs no
navigation, leaves the draft field values unchanged, and ends with the
`submitting` flag cleared, so the same draft can be resubmitted as-is. -/
theorem onSubmit_rejection_no_nav (values : DraftValues)
    (author pathname e : String) :
    (onSubmit values author pathname (Except.error e)).navigations = [] ∧
    (onSubmit values author pathname (Except.error e)).formValues = values ∧
    (onSubmit values author pathname (Except.error e)).submitting = false := by
  refine ⟨?_, ?_, ?_⟩ <;> simp [onSubmit]

end NextDevFlow
